import Mathlib

/-!
Verification of the SeismoScope data pipeline (src/app.py): the feed loader
`load_data` (lines 16-36) and the magnitude/time filter applied in `main`
(lines 66-71). Floats are embedded as rationals (only order comparisons and
verbatim copies occur in the code, never float arithmetic); pandas timestamps
are embedded as integer nanoseconds since the epoch, with `none` standing for
NaT; a missing magnitude (NaN in the frame) is `none`. Pandas comparisons
against NaN and NaT are false, which the filter embedding mirrors.
-/

namespace Seismo

/-- One normalized earthquake record, a row of the DataFrame built by
`load_data`. `time` is nanoseconds since the epoch as stored by pandas;
`none` is NaT. `mag` is `none` when the feed carried null. -/
structure Event where
  place : Option String
  mag : Option ℚ
  time : Option ℤ
  longitude : ℚ
  latitude : ℚ
  depth : ℚ
deriving DecidableEq

/-- The raw `properties.time` field of a feature: an epoch-millisecond
integer, JSON null, or a non-numeric value that pandas cannot parse. -/
inductive TimeField where
  | ms (t : ℤ)
  | null
  | invalid
deriving DecidableEq

/-- One raw GeoJSON feature. `geometry` is `none` when the geometry block is
null or absent; otherwise it is the coordinates array. -/
structure Feature where
  place : Option String
  mag : Option ℚ
  time : TimeField
  geometry : Option (List ℚ)
deriving DecidableEq

/-- The parsed JSON payload of a successful feed response. -/
structure Payload where
  features : List Feature
deriving DecidableEq

/-- Errors raised inside the try block of `load_data` while mapping one
feature (all are caught by the single except clause). -/
inductive LoadError where
  | outOfBoundsDatetime
  | timeParse
  | geometryMissing
  | indexError
deriving DecidableEq

/-- Embedding of `pd.to_datetime(x, unit="ms")` on one integer: the
timestamp value is `t * 10^6` nanoseconds, defined only while it fits the
signed 64-bit range pandas uses (the extreme value is reserved for NaT);
outside it pandas raises OutOfBoundsDatetime. -/
def msToUtcNs (t : ℤ) : Option ℤ :=
  if -(2 ^ 63) < t * 1000000 ∧ t * 1000000 < 2 ^ 63 then some (t * 1000000) else none

/-- Parsing the raw time field as `pd.to_datetime(..., unit="ms")` does:
an integer converts (or raises when out of range), null becomes NaT without
raising, a non-numeric value raises. -/
def parseTime : TimeField → Except LoadError (Option ℤ)
  | .ms t =>
    match msToUtcNs t with
    | some ns => .ok (some ns)
    | none => .error .outOfBoundsDatetime
  | .null => .ok none
  | .invalid => .error .timeParse

/-- Mapping one feature to an Event as the dict literal in `load_data`
does: place and mag are copied verbatim (null stays null), the time field
is parsed, and the three coordinates are indexed out of the geometry block.
A null geometry raises TypeError and a short coordinate array raises
IndexError; both abort the whole comprehension. -/
def parseFeature (f : Feature) : Except LoadError Event :=
  match parseTime f.time with
  | .error e => .error e
  | .ok t =>
    match f.geometry with
    | none => .error .geometryMissing
    | some coords =>
      if h : 2 < coords.length then
        .ok ⟨f.place, f.mag, t, coords.get ⟨0, by omega⟩, coords.get ⟨1, by omega⟩,
             coords.get ⟨2, by omega⟩⟩
      else .error .indexError

/-- True when `parseFeature` succeeds on the feature. -/
def parseOk (f : Feature) : Bool :=
  match parseFeature f with
  | .ok _ => true
  | .error _ => false

/-- The list comprehension of `load_data`: features are mapped in order and
the first exception aborts the whole comprehension. -/
def buildRecords : List Feature → Except LoadError (List Event)
  | [] => .ok []
  | f :: fs =>
    match parseFeature f with
    | .error e => .error e
    | .ok ev =>
      match buildRecords fs with
      | .error e => .error e
      | .ok evs => .ok (ev :: evs)

/-- What `load_data` hands back: the rows of the returned DataFrame and
whether the except branch ran `st.error` (the feed-unavailable advisory). -/
structure LoadResult where
  rows : List Event
  advisory : Bool
deriving DecidableEq

/-- Embedding of `load_data` (src/app.py lines 16-36). The argument stands
for the outcome of the request/raise_for_status/json steps: an error covers
network failure, timeout, a non-success HTTP status, and undecodable JSON.
Any exception inside the try block is caught by the single except clause,
which shows the advisory and returns an empty frame. -/
def load_data (fetch : Except LoadError Payload) : LoadResult :=
  match fetch with
  | .error _ => ⟨[], true⟩
  | .ok p =>
    match buildRecords p.features with
    | .error _ => ⟨[], true⟩
    | .ok events => ⟨events, false⟩

/-- The filter criteria assembled in `main` from the sidebar widgets:
magnitude slider values and the combined start/end datetimes (as pandas
nanosecond timestamps). -/
structure FilterCriteria where
  min_mag : ℚ
  max_mag : ℚ
  start_time : ℤ
  end_time : ℤ
deriving DecidableEq

/-- The row predicate of the boolean mask in `main` lines 66-71:
`(mag >= min) & (mag <= max) & (time >= start) & (time <= end)`.
A NaN magnitude and a NaT time compare false against everything. -/
def rowPass (c : FilterCriteria) (r : Event) : Bool :=
  (match r.mag with
   | some m => decide (c.min_mag ≤ m) && decide (m ≤ c.max_mag)
   | none => false)
  &&
  (match r.time with
   | some t => decide (c.start_time ≤ t) && decide (t ≤ c.end_time)
   | none => false)

/-- Embedding of `filtered_df = df[mask].copy()`: keep the rows passing the
mask, in frame order. -/
def filterRows (rows : List Event) (c : FilterCriteria) : List Event :=
  rows.filter (rowPass c)

/-- The inclusion condition as the spec words it (section 4.2): magnitude
present and inside the inclusive magnitude range, and time present and
inside the inclusive time range. Stated from the spec, to be compared with
`rowPass`, which is stated from the code. -/
def specIncluded (c : FilterCriteria) (r : Event) : Prop :=
  (∃ m, r.mag = some m ∧ c.min_mag ≤ m ∧ m ≤ c.max_mag) ∧
  (∃ t, r.time = some t ∧ c.start_time ≤ t ∧ t ≤ c.end_time)

instance (c : FilterCriteria) (r : Event) : Decidable (specIncluded c r) :=
  decidable_of_iff (rowPass c r = true) (by
    unfold rowPass specIncluded
    cases hm : r.mag <;> cases ht : r.time <;> simp)

/-- Modelled from the spec: the TTL memoization that `st.cache_data(ttl=300)`
wraps around `load_data` (src line 15); the implementation lives in the
caching library, only the 300-second constant is in the source. The cache
holds the fetch time and the fetched rows. -/
structure CacheState where
  entry : Option (ℤ × List Event)
deriving DecidableEq

/-- The TTL constant passed to the cache decorator, in seconds. -/
def ttlSeconds : ℤ := 300

/-- Modelled from the spec: one memoized call at time `now` (seconds).
A cached entry younger than the TTL is returned without fetching; an
expired or absent entry triggers a fetch (`fetched` stands for the rows the
network would return). The third component counts network requests issued
by this call. -/
def loadCached (now : ℤ) (st : CacheState) (fetched : List Event) :
    List Event × CacheState × ℕ :=
  match st.entry with
  | some (t0, rows) =>
    if ttlSeconds < now - t0 then (fetched, ⟨some (now, fetched)⟩, 1)
    else (rows, st, 0)
  | none => (fetched, ⟨some (now, fetched)⟩, 1)

/-- The contract of a sidebar slider: the returned value lies between the
given lower and upper bounds. -/
def sliderValue (lo hi v : ℚ) : Prop := lo ≤ v ∧ v ≤ hi

/-- A criteria reachable through the sidebar: `min_mag` comes from a slider
over [0, 10] and `max_mag` from a slider whose lower bound is the selected
`min_mag` and whose upper bound is 10 (src lines 57-58); the time bounds
are not constrained here. -/
def uiConstructible (c : FilterCriteria) : Prop :=
  sliderValue 0 10 c.min_mag ∧ sliderValue c.min_mag 10 c.max_mag

/-- Modelled from the spec: the inverse conversion of section 8.1, reading
a UTC timestamp back as epoch milliseconds. On the pandas representation
this is the nanosecond value floor-divided by 10^6; the loader itself only
converts forward. -/
def utcToMs (ns : ℤ) : ℤ := Int.fdiv ns 1000000

/-- A well-formed feature: full geometry and an in-range integer time. -/
def goodFeat : Feature := ⟨none, some 3, .ms 1000, some [10, 20, 5]⟩

/-- A malformed feature: the geometry block is missing. -/
def badFeat : Feature := ⟨none, some 4, .ms 2000, none⟩

/-- A payload of two features of which exactly the second is unparsable. -/
def cexPayload : Payload := ⟨[goodFeat, badFeat]⟩

/-- A concrete event with magnitude 3 at time 50. -/
def ev1 : Event := ⟨none, some 3, some 50, 1, 2, 3⟩

/-- A concrete event with negative magnitude. -/
def evNeg : Event := ⟨none, some (-1), some 50, 0, 0, 0⟩

/-- Inverted magnitude bounds: minimum 5 above maximum 2. -/
def cInv : FilterCriteria := ⟨5, 2, 0, 100⟩

/-- A narrow criteria: magnitude in [2, 5], time in [0, 100]. -/
def cNarrow : FilterCriteria := ⟨2, 5, 0, 100⟩

/-- A widening of `cNarrow` in all four bounds. -/
def cWide : FilterCriteria := ⟨1, 6, -10, 200⟩

/-- A criteria reachable from the sidebar defaults. -/
def cUi : FilterCriteria := ⟨5 / 2, 10, 0, 100⟩

theorem rowPass_iff (c : FilterCriteria) (r : Event) :
    rowPass c r = true ↔ specIncluded c r := by
  unfold rowPass specIncluded
  cases hm : r.mag <;> cases ht : r.time <;> simp

/-- C2: a row is in the filter output iff it is an input row whose
magnitude is present and lies in the inclusive magnitude range and whose
time is present and lies in the inclusive time range; in particular a row
meeting a bound exactly is kept and a row with missing magnitude is
dropped for every criteria value. -/
theorem filter_mem_iff (rows : List Event) (c : FilterCriteria) (r : Event) :
    r ∈ filterRows rows c ↔ r ∈ rows ∧ specIncluded c r := by
  unfold filterRows
  rw [List.mem_filter, rowPass_iff]

theorem buildRecords_ok_length (fs : List Feature) (h : ∀ f ∈ fs, parseOk f = true) :
    ∃ evs, buildRecords fs = .ok evs ∧ evs.length = fs.length := by
  induction fs with
  | nil => exact ⟨[], rfl, rfl⟩
  | cons f fs ih =>
    obtain ⟨evs, hevs, hlen⟩ := ih (fun g hg => h g (List.mem_cons_of_mem _ hg))
    have hf := h f (List.mem_cons_self _ _)
    cases hpf : parseFeature f with
    | error e => simp [parseOk, hpf] at hf
    | ok ev =>
      refine ⟨ev :: evs, ?_, by simp [hlen]⟩
      unfold buildRecords
      rw [hpf, hevs]

theorem buildRecords_error (fs : List Feature) (h : ∃ f ∈ fs, parseOk f = false) :
    ∃ e, buildRecords fs = .error e := by
  induction fs with
  | nil => simp at h
  | cons f fs ih =>
    cases hpf : parseFeature f with
    | error e => exact ⟨e, by unfold buildRecords; rw [hpf]⟩
    | ok ev =>
      obtain ⟨g, hg, hgf⟩ := h
      rcases List.mem_cons.mp hg with rfl | hg2
      · simp [parseOk, hpf] at hgf
      · obtain ⟨e, he⟩ := ih ⟨g, hg2, hgf⟩
        exact ⟨e, by unfold buildRecords; rw [hpf, he]⟩

/-- C1 counterexample: on a payload of two features of which exactly one is
individually unparsable (missing geometry), `load_data` does not return a
RowSet of length `2 - 1 = 1`: the single except clause aborts the whole
comprehension, so it returns zero rows. -/
theorem load_skip_claim_false :
    (cexPayload.features.filter (fun f => !parseOk f)).length = 1 ∧
    ¬ ((load_data (.ok cexPayload)).rows.length = cexPayload.features.length - 1) := by
  decide

/-- C1 (amended): a single feature missing required geometry or carrying an
unparsable timestamp is not skipped; it makes the whole load fail, so
`load_data` returns an empty RowSet with the advisory set. Only when every
feature parses does the RowSet length equal the number of features. -/
theorem load_bad_record_total_failure (p : Payload) :
    ((∀ f ∈ p.features, parseOk f = true) →
      (load_data (.ok p)).rows.length = p.features.length ∧
      (load_data (.ok p)).advisory = false) ∧
    ((∃ f ∈ p.features, parseOk f = false) → load_data (.ok p) = ⟨[], true⟩) := by
  constructor
  · intro h
    obtain ⟨evs, hevs, hlen⟩ := buildRecords_ok_length p.features h
    simp [load_data, hevs, hlen]
  · intro h
    obtain ⟨e, he⟩ := buildRecords_error p.features h
    simp [load_data, he]

theorem load_bad_record_total_failure_witness :
    (load_data (.ok ⟨[goodFeat]⟩)).rows.length = 1 ∧
    load_data (.ok cexPayload) = ⟨[], true⟩ :=
  ⟨((load_bad_record_total_failure ⟨[goodFeat]⟩).1 (by decide)).1,
   (load_bad_record_total_failure cexPayload).2 ⟨badFeat, by decide, by decide⟩⟩

/-- C3: when the fetch step fails (network error, timeout, non-success
status via raise_for_status, or undecodable body), `load_data` returns an
empty RowSet together with the advisory; being a total function of the
fetch outcome, it raises nothing past the loader boundary. -/
theorem load_feed_unavailable (e : LoadError) :
    load_data (.error e) = ⟨[], true⟩ := rfl

/-- C4: criteria with inverted magnitude or time bounds are accepted as
given and the filter output is empty, with no fault signaled. -/
theorem filter_inverted_bounds_empty (rows : List Event) (c : FilterCriteria)
    (h : c.max_mag < c.min_mag ∨ c.end_time < c.start_time) :
    filterRows rows c = [] := by
  unfold filterRows
  rw [List.filter_eq_nil_iff]
  intro r hr
  simp only [rowPass_iff]
  rintro ⟨⟨m, hm, h1, h2⟩, ⟨t, ht, h3, h4⟩⟩
  rcases h with h | h
  · linarith
  · omega

theorem filter_inverted_bounds_empty_witness : filterRows [ev1] cInv = [] :=
  filter_inverted_bounds_empty [ev1] cInv (Or.inl (by decide))

/-- C5: the filter output is a subsequence of the input (so any two
retained rows keep their relative order), its length is at most the input
length, and criteria satisfied by no row yield the empty RowSet rather
than an error. -/
theorem filter_subsequence_order (rows : List Event) (c : FilterCriteria) :
    (filterRows rows c).Sublist rows ∧
    (filterRows rows c).length ≤ rows.length ∧
    ((∀ r ∈ rows, ¬ specIncluded c r) → filterRows rows c = []) := by
  refine ⟨List.filter_sublist rows, List.length_filter_le _ rows, fun h => ?_⟩
  unfold filterRows
  rw [List.filter_eq_nil_iff]
  intro r hr
  simp only [rowPass_iff]
  exact h r hr

theorem filter_subsequence_order_witness : filterRows [evNeg] cNarrow = [] :=
  (filter_subsequence_order [evNeg] cNarrow).2.2 (by decide)

/-- C6: filtering twice with the same criteria equals filtering once. -/
theorem filter_idempotent (rows : List Event) (c : FilterCriteria) :
    filterRows (filterRows rows c) c = filterRows rows c := by
  unfold filterRows
  rw [List.filter_filter]
  simp

/-- C7: widening any bound of the criteria (lower minimum magnitude,
higher maximum magnitude, earlier start, later end) never decreases the
number of rows in the filter output. -/
theorem filter_monotone_widening (rows : List Event) (c1 c2 : FilterCriteria)
    (hmin : c2.min_mag ≤ c1.min_mag) (hmax : c1.max_mag ≤ c2.max_mag)
    (hstart : c2.start_time ≤ c1.start_time) (hend : c1.end_time ≤ c2.end_time) :
    (filterRows rows c1).length ≤ (filterRows rows c2).length := by
  have himp : ∀ r, rowPass c1 r = true → rowPass c2 r = true := by
    intro r h
    rw [rowPass_iff] at h ⊢
    obtain ⟨⟨m, hm, ha, hb⟩, ⟨t, ht, hc, hd⟩⟩ := h
    exact ⟨⟨m, hm, le_trans hmin ha, le_trans hb hmax⟩,
           ⟨t, ht, le_trans hstart hc, le_trans hd hend⟩⟩
  exact (List.monotone_filter_right rows himp).length_le

theorem filter_monotone_widening_witness :
    (filterRows [ev1] cNarrow).length ≤ (filterRows [ev1] cWide).length :=
  filter_monotone_widening [ev1] cNarrow cWide (by decide) (by decide) (by decide)
    (by decide)

/-- C8: the epoch-millisecond to UTC conversion round-trips exactly:
whenever `pd.to_datetime(t, unit="ms")` succeeds, reading the resulting
timestamp back as epoch milliseconds recovers `t`. -/
theorem ms_utc_roundtrip (t ns : ℤ) (h : msToUtcNs t = some ns) : utcToMs ns = t := by
  unfold msToUtcNs at h
  split at h
  · cases h
    unfold utcToMs
    exact Int.mul_fdiv_cancel t (by norm_num)
  · exact Option.noConfusion h

theorem ms_utc_roundtrip_witness : utcToMs 5000000 = 5 :=
  ms_utc_roundtrip 5 5000000 (by decide)

/-- C9: with the 300-second TTL memoization, a first call from a cold
cache issues one request and stores the rows; a second call at most 300
seconds later issues no request and returns the previously fetched rows; a
second call 301 or more seconds later issues a fresh request. -/
theorem load_cache_ttl (t1 d : ℤ) (rows1 rows2 : List Event) :
    (loadCached t1 ⟨none⟩ rows1).2.2 = 1 ∧
    (loadCached t1 ⟨none⟩ rows1).2.1 = ⟨some (t1, rows1)⟩ ∧
    (0 ≤ d → d ≤ 300 →
      (loadCached (t1 + d) ⟨some (t1, rows1)⟩ rows2).2.2 = 0 ∧
      (loadCached (t1 + d) ⟨some (t1, rows1)⟩ rows2).1 = rows1) ∧
    (301 ≤ d → (loadCached (t1 + d) ⟨some (t1, rows1)⟩ rows2).2.2 = 1) := by
  refine ⟨rfl, rfl, ?_, ?_⟩
  · intro h0 h300
    have hnot : ¬ (ttlSeconds < d) := by unfold ttlSeconds; omega
    exact ⟨by simp [loadCached, hnot], by simp [loadCached, hnot]⟩
  · intro h
    have hlt : ttlSeconds < d := by unfold ttlSeconds; omega
    simp [loadCached, hlt]

theorem load_cache_ttl_witness :
    (loadCached (0 + 1) ⟨some (0, [ev1])⟩ []).2.2 = 0 ∧
    (loadCached (0 + 301) ⟨some (0, [ev1])⟩ []).2.2 = 1 :=
  ⟨((load_cache_ttl 0 1 [ev1] []).2.2.1 (by norm_num) (by norm_num)).1,
   (load_cache_ttl 0 301 [ev1] []).2.2.2 (by norm_num)⟩

/-- C10: every criteria reachable through the sidebar sliders satisfies
`0 ≤ min_mag ≤ max_mag ≤ 10` (so inverted magnitude bounds cannot be
produced from the UI), and a row whose magnitude is negative is excluded
from every UI-driven filter result. -/
theorem ui_criteria_invariant (c : FilterCriteria) (h : uiConstructible c) :
    (0 ≤ c.min_mag ∧ c.min_mag ≤ c.max_mag ∧ c.max_mag ≤ 10) ∧
    (∀ (rows : List Event) (r : Event) (m : ℚ),
      r.mag = some m → m < 0 → r ∉ filterRows rows c) := by
  obtain ⟨⟨h1, h2⟩, h3, h4⟩ := h
  refine ⟨⟨h1, h3, h4⟩, ?_⟩
  intro rows r m hm hneg hmem
  rw [filterRows, List.mem_filter] at hmem
  obtain ⟨⟨m2, hm2, ha, hb⟩, ht⟩ := (rowPass_iff c r).mp hmem.2
  rw [hm] at hm2
  cases hm2
  linarith

theorem ui_criteria_invariant_witness :
    0 ≤ cUi.min_mag ∧ evNeg ∉ filterRows [evNeg] cUi := by
  have h : uiConstructible cUi :=
    ⟨⟨by norm_num [cUi], by norm_num [cUi]⟩, by norm_num [cUi], by norm_num [cUi]⟩
  exact ⟨(ui_criteria_invariant cUi h).1.1,
         (ui_criteria_invariant cUi h).2 [evNeg] evNeg (-1) rfl (by decide)⟩

end Seismo
